import Mathlib

/- Formal model of the process-orchestration core of minishell.c: the
   file-descriptor snapshot/restore pair (store/restore), the pipeline
   executor (executeExternalCommands: pipe accounting, background job
   insertion, foreground waits), the job registry (finished, delete,
   mshjobs, mshfg), the redirection helper (auxiliarRedirect), and the
   SIGINT handler policy (ctrlc / ctrlc2 / SIG_IGN). -/

/-- File-descriptor table of one process: a descriptor number is either
bound to an open file description (an abstract numeric label) or
closed. -/
abbrev FdTable : Type := Nat → Option Nat

/-- POSIX dup2(oldfd, newfd): rebinds newfd to oldfd's open file
description; when oldfd is closed the call fails with EBADF and the
table is unchanged. -/
def dup2 (oldfd newfd : Nat) (t : FdTable) : FdTable :=
  match t oldfd with
  | none => t
  | some o => fun n => if n = newfd then some o else t n

/-- POSIX close(fd): unbinds fd (closing an already-closed fd is a
failing no-op). -/
def fdclose (fd : Nat) (t : FdTable) : FdTable :=
  fun n => if n = fd then none else t n

/-- Function store of minishell.c (lines 248-253). Its body is
dup2(STDERR_FILENO, *stderrfd); dup2(STDIN_FILENO, *stdinfd);
dup2(STDOUT_FILENO, *stdoutfd). The pointed-to caller locals stdinfd,
stdoutfd, stderrfd are never assigned; their indeterminate initial
values are the parameters g0, g1, g2, and the dup2 calls write the
standard streams onto those indeterminate descriptor numbers. -/
def store (g0 g1 g2 : Nat) (t : FdTable) : FdTable :=
  dup2 1 g1 (dup2 0 g0 (dup2 2 g2 t))

/-- Function restore of minishell.c (lines 344-349):
dup2(stderrfd, STDERR_FILENO); dup2(stdinfd, STDIN_FILENO);
dup2(stdoutfd, STDOUT_FILENO), where stdinfd/stdoutfd/stderrfd are the
same (still indeterminate) values g0, g1, g2 that store received. -/
def restore (g0 g1 g2 : Nat) (t : FdTable) : FdTable :=
  dup2 g1 1 (dup2 g0 0 (dup2 g2 2 t))

/-- Parent-side file-descriptor effect of executeExternalCommands for a
pipeline of exactly one command (ncommands = 1, so next is false and no
pipe is created): store(&stdinfd,&stdoutfd,&stderrfd); then in the
parent branch the unconditional close(p[PIPE_WRITE]) of the
uninitialized pipe slot (indeterminate descriptor gp, line 413); then
restore (line 416); the for loop does not run; then restore again
(line 530). fork and wait do not change the parent's table. -/
def execFdsSingle (g0 g1 g2 gp : Nat) (t : FdTable) : FdTable :=
  restore g0 g1 g2 (restore g0 g1 g2 (fdclose gp (store g0 g1 g2 t)))

/-- Concrete pre-execution table: stdin bound to description 100, stdout
to 101, stderr to 102, all other descriptors closed. -/
def t0fd : FdTable := fun n =>
  if n = 0 then some 100 else if n = 1 then some 101 else
  if n = 2 then some 102 else none

/-- Number of pipe() calls performed in the loop of
executeExternalCommands (lines 439-452): for (command = 1;
next && command < commands; command++) performs exactly one pipe() call
per iteration (pipe(p) when command is even, pipe(p2) when odd — one
call either way). Fuel is the remaining iteration budget; the function
is entered with fuel = commands, which dominates the loop's trip
count. -/
def pipeCallsLoop (commands : Nat) : Nat → Nat → Nat
  | 0, _ => 0
  | f + 1, command =>
    if 1 < commands ∧ command < commands then
      1 + pipeCallsLoop commands f (command + 1)
    else 0

/-- Total number of pipe() calls performed by executeExternalCommands
for a pipeline of the given number of commands: one call before the
first fork when next = commands > 1 (line 389), plus one per loop
iteration. -/
def pipeCalls (commands : Nat) : Nat :=
  (if 1 < commands then 1 else 0) + pipeCallsLoop commands commands 1

/-- State of a child process of the shell: still running, exited but not
yet reaped (a zombie), or already reaped by some wait call. Process ids
that are not children of the shell are modeled as reaped, since waitpid
answers -1 (ECHILD) for them exactly as for an already-reaped child. -/
inductive PidState where
  | running
  | exited
  | reaped
deriving DecidableEq

/-- The shell's view of its child processes: pid to state. -/
abbrev World : Type := Int → PidState

/-- waitpid(pid, NULL, WNOHANG): returns 0 when the child is still
running, pid when it has exited (reaping the zombie), and -1 (ECHILD)
when there is no unreaped child with that pid. -/
def waitpidNohang (pid : Int) (w : World) : Int × World :=
  match w pid with
  | PidState.running => (0, w)
  | PidState.exited => (pid, fun p => if p = pid then PidState.reaped else w p)
  | PidState.reaped => (-1, w)

/-- Structure tjob of minishell.c: the spawning instruction text, the
number of processes, the pid array (indices beyond size hold stale
memory), and the latched finished flag (a C int, 0 or 1). -/
structure TJob where
  instruction : String
  size : Nat
  pids : Nat → Int
  finished : Int

/-- Structure tjobs of minishell.c: the malloc'd array of
MAXIMUM_JOB_LIST_SIZE = 50 tjob slots (modeled as a total function;
slots at or beyond size hold stale memory) and the current size, kept
as a C int because the source updates it with modulo arithmetic that
C's % (truncating remainder, Int.tmod) defines. -/
structure TJobs where
  list : Nat → TJob
  size : Int

/-- Loop of function finished (lines 765-775): for index in the next
fuel positions starting at i, compute
finished = waitpid(pids[index], NULL, WNOHANG) == pid and return 0 at
the first index where it fails; each waitpid call that finds a zombie
reaps it even when the overall answer is 0. -/
def finishedAux (pids : Nat → Int) : Nat → Nat → World → Bool × World
  | _, 0, w => (true, w)
  | i, f + 1, w =>
    let r := waitpidNohang (pids i) w
    if r.1 = pids i then finishedAux pids (i + 1) f r.2 else (false, r.2)

/-- Function finished of minishell.c (lines 751-780): if the job's
finished flag is already 1, return 1 immediately; otherwise poll every
pid with waitpid(.., WNOHANG), return 0 at the first pid not reported
as just exited, and when all report exited latch finished = 1 and
return 1. Returns (result, updated job, updated world). -/
def finished (job : TJob) (w : World) : Int × TJob × World :=
  if job.finished = 1 then (1, job, w)
  else
    let r := finishedAux job.pids 0 job.size w
    if r.1 then (1, { job with finished := 1 }, r.2) else (0, job, r.2)

/-- Loop of function delete (lines 862-865): for the next fuel indices
starting at index, list[index] = list[index + 1]. Fuel is
jobs.size - job, matching for (index = job; index < jobsSize;
index++). -/
def deleteLoop : Nat → (Nat → TJob) → Nat → (Nat → TJob)
  | 0, list, _ => list
  | f + 1, list, index =>
    deleteLoop f (fun n => if n = index then list (index + 1) else list n) (index + 1)

/-- Function delete of minishell.c (lines 856-868): slide every entry
from position job on down by one (the last visible slot receives the
stale entry just past the end), then
jobs->size = (jobs->size - 1) % MAXIMUM_JOB_LIST_SIZE with C's
truncating %. -/
def delete (job : Nat) (jobs : TJobs) : TJobs :=
  { list := deleteLoop (jobs.size.toNat - job) jobs.list job,
    size := Int.tmod (jobs.size - 1) 50 }

/-- The SIGINT disposition installed by the shell: ctrlc (idle handler,
newline + prompt + flush), ctrlc2 (foreground-wait handler, newline
only), or SIG_IGN (during fg's wait). -/
inductive Handler where
  | ctrlc
  | ctrlc2
  | sigign
deriving DecidableEq

/-- One line written by the shell, tagged with its stream: out for
printf (stdout), err for fprintf(stderr, ..). -/
inductive Out where
  | out (s : String)
  | err (s : String)
deriving DecidableEq

/-- Parsed command line as executeExternalCommands consumes it: the
number of commands and the background flag (redirections and argument
vectors do not affect the parent-side state modeled here). -/
structure LineT where
  ncommands : Nat
  background : Bool

/-- Result of the parent's run through executeExternalCommands: the job
registry, the job-control announcements printed ("[slot] pid" modeled
as the pair), and the SIGINT handler in effect on return. -/
structure ExecRes where
  jobs : TJobs
  out : List (Int × Int)
  handler : Handler

/-- Background bookkeeping of lines 420-427: currentJob =
&jobs->list[jobs->size]; copy the instruction; currentJob->size =
commands; currentJob->pids[0] = pid; currentJob->finished = 0; then
jobs->size = (jobs->size + 1) % MAXIMUM_JOB_LIST_SIZE with C's
truncating %. Slots of the pids array other than 0 keep the stale
memory already in the slot. -/
def insertJob (jobs : TJobs) (buffer : String) (commands : Nat) (pid : Int) : TJobs :=
  let idx := jobs.size.toNat
  let old := jobs.list idx
  let nj : TJob :=
    { instruction := buffer, size := commands,
      pids := fun n => if n = 0 then pid else old.pids n, finished := 0 }
  { list := fun n => if n = idx then nj else jobs.list n,
    size := Int.tmod (jobs.size + 1) 50 }

/-- Line 515: currentJob->pids[command] = pid, recorded through the
pointer into the registry slot curIdx where the job was inserted. -/
def updateJobPid (jobs : TJobs) (curIdx command : Nat) (pid : Int) : TJobs :=
  let j := jobs.list curIdx
  let j' := { j with pids := fun n => if n = command then pid else j.pids n }
  { jobs with list := fun n => if n = curIdx then j' else jobs.list n }

/-- Registry and announcement effect of the loop of
executeExternalCommands (lines 439-527) in the parent: for (command = 1;
next && command < commands; command++) fork the child whose pid the
oracle pids gives; in background record the pid into the current job
and, when command == commands - 1, print "[jobs->size] pid"; in
foreground wait(NULL) (no registry effect; reaping is modeled by
fgRun). Fuel dominates the trip count; the caller passes commands. -/
def execLoopGo (pids : Nat → Int) (commands : Nat) (background : Bool) (curIdx : Nat) :
    Nat → Nat → TJobs → List (Int × Int) → TJobs × List (Int × Int)
  | 0, _, jobs, out => (jobs, out)
  | f + 1, command, jobs, out =>
    if 1 < commands ∧ command < commands then
      if background then
        let jobs' := updateJobPid jobs curIdx command (pids command)
        let out' :=
          if command = commands - 1 then out ++ [(jobs'.size, pids command)] else out
        execLoopGo pids commands background curIdx f (command + 1) jobs' out'
      else
        execLoopGo pids commands background curIdx f (command + 1) jobs out
    else (jobs, out)

/-- Parent-side run of executeExternalCommands (lines 370-534) projected
onto the job registry, the job announcements and the SIGINT handler:
signal(SIGINT, ctrlc2) on entry; fork the first command (its pid is
pids 0); if background, insert the job at jobs->size and, when there is
no following command, print "[jobs->size] pid" (size already
incremented); if foreground, wait(NULL); then the loop over the
remaining commands; finally signal(SIGINT, ctrlc) on the single exit
path. The file-descriptor traffic is modeled by execFdsSingle and the
pipe() accounting by pipeCalls. -/
def executeExternalCommands (line : LineT) (jobs : TJobs) (buffer : String)
    (pids : Nat → Int) : ExecRes :=
  let commands := line.ncommands
  if line.background then
    let curIdx := jobs.size.toNat
    let jobs1 := insertJob jobs buffer commands (pids 0)
    let out0 := if 1 < commands then [] else [(jobs1.size, pids 0)]
    let r := execLoopGo pids commands true curIdx commands 1 jobs1 out0
    { jobs := r.1, out := r.2, handler := Handler.ctrlc }
  else
    let r := execLoopGo pids commands false 0 commands 1 jobs []
    { jobs := r.1, out := r.2, handler := Handler.ctrlc }

/-- Scan loop of mshjobs (lines 716-735): for each j below jobsSize,
call finished on &jobs->list[j] (its latch writes back through the
pointer), print "[j+1] Done<tab>instruction" or
"[j+1] Running<tab>instruction", and record each finished index j into
the finishedJobs array, finishedJobsSize = (finishedJobsSize + 1) % 50.
Returns (list, world, finishedJobs, finishedJobsSize, output). -/
def mshjobsScan (jobsSize : Nat) :
    Nat → Nat → (Nat → TJob) → World → (Nat → Nat) → Nat → List String →
    (Nat → TJob) × World × (Nat → Nat) × Nat × List String
  | 0, _, list, w, fjA, fjs, out => (list, w, fjA, fjs, out)
  | f + 1, j, list, w, fjA, fjs, out =>
    if j < jobsSize then
      let r := finished (list j) w
      let list' := fun n => if n = j then r.2.1 else list n
      if r.1 = 0 then
        mshjobsScan jobsSize f (j + 1) list' r.2.2 fjA fjs
          (out ++ ["[" ++ toString (j + 1) ++ "] Running\t" ++ (list j).instruction])
      else
        mshjobsScan jobsSize f (j + 1) list' r.2.2
          (fun n => if n = fjs then j else fjA n) ((fjs + 1) % 50)
          (out ++ ["[" ++ toString (j + 1) ++ "] Done\t" ++ (list j).instruction])
    else (list, w, fjA, fjs, out)

/-- Deletion pass of mshjobs (lines 737-740): for (j = 0;
j < finishedJobsSize; j++) delete(finishedJobs[j], jobs), applied to
the registry left by the scan. -/
def deleteAll (fjA : Nat → Nat) : Nat → Nat → TJobs → TJobs
  | 0, _, jobs => jobs
  | f + 1, j, jobs => deleteAll fjA f (j + 1) (delete (fjA j) jobs)

/-- Function mshjobs of minishell.c (lines 709-741): status pass over
every job with finished, then the deferred deletion pass over the
recorded indices. Returns (registry, world, printed lines). -/
def mshjobs (jobs : TJobs) (w : World) : TJobs × World × List String :=
  let jobsSize := jobs.size.toNat
  let r := mshjobsScan jobsSize jobsSize 0 jobs.list w (fun _ => 0) 0 []
  (deleteAll r.2.2.1 r.2.2.2.1 0 { list := r.1, size := jobs.size }, r.2.1, r.2.2.2.2)

/-- C isspace over the characters atoi skips. -/
def isSpaceC (c : Char) : Bool :=
  c == ' ' || c == '\t' || c == '\n' || c == '\x0b' || c == '\x0c' || c == '\r'

/-- Digit-accumulation loop of C atoi: consume leading decimal digits,
stopping at the first non-digit. -/
def atoiDigits : List Char → Nat → Nat
  | [], acc => acc
  | c :: cs, acc =>
    if c.isDigit then atoiDigits cs (acc * 10 + (c.toNat - 48)) else acc

/-- C atoi as mshfg uses it: skip leading whitespace, an optional sign,
then decimal digits; a string with no leading digits yields 0. -/
def atoi (s : String) : Int :=
  match s.data.dropWhile isSpaceC with
  | '-' :: rest => -(atoiDigits rest 0 : Nat)
  | '+' :: rest => (atoiDigits rest 0 : Nat)
  | rest => (atoiDigits rest 0 : Nat)

/-- Blocking wait loop of mshfg (lines 839-842): for index below the
job's size, waitpid(pids[index], NULL, WAIT); each blocking wait ends
with that pid reaped (an already-reaped pid answers -1 immediately and
stays reaped; the return value is ignored). -/
def waitAllGo (pids : Nat → Int) : Nat → Nat → World → World
  | 0, _, w => w
  | f + 1, idx, w =>
    waitAllGo pids f (idx + 1) (fun p => if p = pids idx then PidState.reaped else w p)

/-- Body of mshfg of minishell.c (lines 797-848) for a present argument
string: if jobs->size == 0 print "fg: There are no jobs available" and
return; mappedJob = atoi(job) - 1; if mappedJob < 0 or mappedJob >
jobs->size - 1 print "fg: Error. No such job" on stderr and return;
otherwise signal(SIGINT, SIG_IGN), call finished on the slot (latch
written back through the pointer); if it reports finished print the
termination messages, else print the instruction and block-wait on
every pid; in both cases delete the slot and install signal(SIGINT,
ctrlc). Returns (registry, world, handler on return, printed lines). -/
def mshfgCore (job : String) (jobs : TJobs) (w : World) (h : Handler) :
    TJobs × World × Handler × List Out :=
  if jobs.size = 0 then
    (jobs, w, h, [Out.out "fg: There are no jobs available"])
  else
    let mappedJob : Int := atoi job - 1
    if mappedJob < 0 ∨ jobs.size - 1 < mappedJob then
      (jobs, w, h, [Out.err "fg: Error. No such job"])
    else
      let idx := mappedJob.toNat
      let r := finished (jobs.list idx) w
      let jobs1 : TJobs :=
        { jobs with list := fun n => if n = idx then r.2.1 else jobs.list n }
      if r.1 = 0 then
        let w2 := waitAllGo r.2.1.pids r.2.1.size 0 r.2.2
        (delete idx jobs1, w2, Handler.ctrlc, [Out.out r.2.1.instruction])
      else
        (delete idx jobs1, r.2.2, Handler.ctrlc,
          [Out.out "fg: job has terminated",
           Out.out ("[" ++ job ++ "] Done\t" ++ r.2.1.instruction)])

/-- Function mshfg of minishell.c: a NULL argument recurses once with
"1" (lines 804-808); otherwise run the body on the given argument. -/
def mshfg (job : Option String) (jobs : TJobs) (w : World) (h : Handler) :
    TJobs × World × Handler × List Out :=
  match job with
  | none => mshfgCore "1" jobs w h
  | some s => mshfgCore s jobs w h

/-- Result of auxiliarRedirect: either the updated descriptor table and
diagnostics, or the undefined-behavior marker reached by executing
fileno(NULL) / fclose(NULL) after a failed fopen. -/
inductive RedirResult where
  | ok (t : FdTable) (diag : List String)
  | ub (diag : List String)

/-- Lowest free descriptor number, as POSIX assigns to a newly opened
file (searched below a fixed table limit). -/
def lowestFree (t : FdTable) : Nat :=
  (List.range 1024).findIdx (fun n => (t n).isNone)

/-- Function auxiliarRedirect of minishell.c (lines 295-312): file =
fopen(filename, MODE) — the filesystem oracle fs says whether the open
succeeds and which open file description it yields; on failure it
prints "filename: Error. <strerror>" to stderr but does NOT return, so
control continues into fd = fileno(file) with file == NULL, which is
undefined behavior (marked ub). On success: fd is the lowest free
descriptor, dup2(fd, STD_FILENO), fclose(file), close(fd). -/
def auxiliarRedirect (fs : String → String → Option Nat) (filename MODE : String)
    (STD : Nat) (t : FdTable) (diag : List String) : RedirResult :=
  match fs filename MODE with
  | none => RedirResult.ub (diag ++ [filename ++ ": Error."])
  | some obj =>
    let fd := lowestFree t
    let t1 : FdTable := fun n => if n = fd then some obj else t n
    let t2 := dup2 fd STD t1
    RedirResult.ok (fdclose fd (fdclose fd t2)) diag

/-- wait(NULL) as the foreground branch of executeExternalCommands uses
it (lines 436 and 524): it reaps SOME child of the shell — not
necessarily the one just spawned. The scheduler's choice among the
outstanding (unreaped) children is the oracle pick; any index can be
chosen. Returns the reaped pid and the remaining outstanding list. -/
def waitAnyPick (outs : List Int) (pick : Nat) : Int × List Int :=
  let j := pick % outs.length
  (outs.getD j 0, outs.eraseIdx j)

/-- Foreground spawn/wait sequence of executeExternalCommands: for each
command index i in order the parent forks a child with pid (pids i) and
immediately performs one blocking wait(NULL), which reaps a
scheduler-chosen outstanding child. outs is the list of the shell's
unreaped children (for example zombies left by earlier background
jobs). Returns (final outstanding list, reap log in wait order). -/
def fgRun (pids : Nat → Int) (picks : Nat → Nat) : Nat → Nat → List Int → List Int × List Int
  | 0, _, outs => (outs, [])
  | f + 1, i, outs =>
    let outs1 := pids i :: outs
    let r := waitAnyPick outs1 (picks i)
    let rest := fgRun pids picks f (i + 1) r.2
    (rest.1, r.1 :: rest.2)

/-- Left-to-right spawn order of a pipeline: the pids of commands
i, i+1, ... over the given count. -/
def spawnOrder (pids : Nat → Int) : Nat → Nat → List Int
  | _, 0 => []
  | i, f + 1 => pids i :: spawnOrder pids (i + 1) f

/-- Stale tjob contents of untouched malloc'd registry memory. -/
def djob : TJob :=
  { instruction := "", size := 0, pids := fun _ => 0, finished := 0 }

/-- Registry holding 49 jobs: one insertion away from the capacity
MAXIMUM_JOB_LIST_SIZE = 50. -/
def jobs49 : TJobs := { list := fun _ => djob, size := 49 }

/-- Two-stage background job a | b with pids 100 and 101. -/
def c3job : TJob :=
  { instruction := "a | b &", size := 2,
    pids := fun n => if n = 0 then 100 else if n = 1 then 101 else 0,
    finished := 0 }

/-- World in which stage 1 (pid 100) has exited but stage 2 (pid 101)
is still running. -/
def c3w0 : World := fun p =>
  if p = 100 then PidState.exited else
  if p = 101 then PidState.running else PidState.reaped

/-- World after the first finished poll (which reaped pid 100), once
stage 2 (pid 101) has also exited. -/
def c3w2 : World := fun p =>
  if p = 101 then PidState.exited else (finished c3job c3w0).2.2 p

/-- Three background jobs for the mshjobs scenario. -/
def c5jobA : TJob :=
  { instruction := "a &", size := 1, pids := fun _ => 100, finished := 0 }

def c5jobB : TJob :=
  { instruction := "b &", size := 1, pids := fun _ => 101, finished := 0 }

def c5jobC : TJob :=
  { instruction := "c &", size := 1, pids := fun _ => 102, finished := 0 }

/-- Registry with jobs a (slot 1), b (slot 2), c (slot 3). -/
def c5jobs : TJobs :=
  { list := fun n =>
      if n = 0 then c5jobA else if n = 1 then c5jobB else
      if n = 2 then c5jobC else djob,
    size := 3 }

/-- World in which a and b have exited and c is still running. -/
def c5w : World := fun p =>
  if p = 100 then PidState.exited else
  if p = 101 then PidState.exited else
  if p = 102 then PidState.running else PidState.reaped

/-- Registry with one unfinished single-process job (pid 100). -/
def c9jobs : TJobs :=
  { list := fun n => if n = 0 then c5jobA else djob, size := 1 }

/-- World in which pid 100 is still running. -/
def c9w : World := fun p =>
  if p = 100 then PidState.running else PidState.reaped

/-- Truncating remainder by 50 is the identity on the sizes insert
produces while the registry stays below capacity. -/
theorem tmod50_small (s : Int) (h0 : 0 ≤ s) (h1 : s ≤ 48) :
    Int.tmod (s + 1) 50 = s + 1 := by
  obtain ⟨m, rfl⟩ := Int.eq_ofNat_of_zero_le h0
  have hm : m + 1 < 50 := by omega
  calc Int.tmod (Int.ofNat m + 1) 50 = Int.ofNat ((m + 1) % 50) := rfl
    _ = Int.ofNat (m + 1) := by rw [Nat.mod_eq_of_lt hm]
    _ = Int.ofNat m + 1 := rfl

/-- The loop of executeExternalCommands performs one pipe() call per
remaining command once the first command has been forked. -/
theorem pipeCallsLoop_eq (commands : Nat) (hc : 1 < commands) :
    ∀ f c, commands ≤ c + f → pipeCallsLoop commands f c = commands - c := by
  intro f
  induction f with
  | zero => intro c hcf; simp only [pipeCallsLoop]; omega
  | succ f ih =>
    intro c hcf
    simp only [pipeCallsLoop]
    by_cases h : c < commands
    · rw [if_pos ⟨hc, h⟩, ih (c + 1) (by omega)]; omega
    · rw [if_neg (by tauto)]; omega

/-- Closed form of delete's sliding loop: positions from index up to
index + fuel take the next entry's old value, everything else is
untouched. -/
theorem deleteLoop_get :
    ∀ (f : Nat) (list : Nat → TJob) (index n : Nat),
      deleteLoop f list index n =
        if index ≤ n ∧ n < index + f then list (n + 1) else list n := by
  intro f
  induction f with
  | zero =>
    intro list index n
    rw [deleteLoop, if_neg (by omega)]
  | succ f ih =>
    intro list index n
    rw [deleteLoop, ih]
    by_cases ha : index + 1 ≤ n ∧ n < index + 1 + f
    · rw [if_pos ha, if_pos (show index ≤ n ∧ n < index + (f + 1) by omega)]
      show (if n + 1 = index then list (index + 1) else list (n + 1)) = list (n + 1)
      exact if_neg (by omega)
    · by_cases hb : n = index
      · subst hb
        rw [if_neg ha, if_pos (show n ≤ n ∧ n < n + (f + 1) by omega)]
        show (if n = n then list (n + 1) else list n) = list (n + 1)
        exact if_pos rfl
      · rw [if_neg ha, if_neg (show ¬(index ≤ n ∧ n < index + (f + 1)) by omega)]
        show (if n = index then list (index + 1) else list n) = list n
        exact if_neg hb

/-- Recording a pid into an existing job slot does not change the
registry size. -/
theorem updateJobPid_size (jobs : TJobs) (curIdx command : Nat) (pid : Int) :
    (updateJobPid jobs curIdx command pid).size = jobs.size := rfl

/-- The loop of executeExternalCommands leaves the registry and the
output untouched once command reaches commands. -/
theorem execLoopGo_stop (pids : Nat → Int) (commands : Nat) (bg : Bool) (curIdx : Nat)
    (f c : Nat) (jobs : TJobs) (out : List (Int × Int)) (hc : commands ≤ c) :
    execLoopGo pids commands bg curIdx f c jobs out = (jobs, out) := by
  cases f with
  | zero => rw [execLoopGo]
  | succ f => rw [execLoopGo, if_neg (by omega)]

/-- In background mode the loop of executeExternalCommands prints
exactly one announcement, at the last command, showing the registry
size current throughout the loop and the last command's pid. -/
theorem execLoopGo_out_bg (pids : Nat → Int) (commands : Nat) (curIdx : Nat) :
    ∀ f c jobs out, 1 < commands → c < commands → commands - c ≤ f →
      (execLoopGo pids commands true curIdx f c jobs out).2 =
        out ++ [(jobs.size, pids (commands - 1))] := by
  intro f
  induction f with
  | zero => intro c jobs out h1 h2 h3; omega
  | succ f ih =>
    intro c jobs out h1 h2 h3
    by_cases hl : c = commands - 1
    · subst hl
      simp only [execLoopGo, if_pos (And.intro h1 h2), if_true,
        if_pos (rfl : commands - 1 = commands - 1)]
      rw [execLoopGo_stop pids commands true curIdx f (commands - 1 + 1) _ _ (by omega),
        updateJobPid_size]
    · simp only [execLoopGo, if_pos (And.intro h1 h2), if_true, if_neg hl]
      rw [ih (c + 1) _ out (by omega) (by omega) (by omega), updateJobPid_size]

/-- When the shell has no other unreaped children, each wait(NULL) of
the foreground sequence can only reap the child just spawned, so the
reap log is exactly the spawn order. -/
theorem fgRun_no_other_children (pids : Nat → Int) (picks : Nat → Nat) :
    ∀ f i, (fgRun pids picks f i []).2 = spawnOrder pids i f := by
  intro f
  induction f with
  | zero => intro i; rfl
  | succ f ih =>
    intro i
    simp [fgRun, waitAnyPick, spawnOrder, Nat.mod_one, ih]

/-- Size written by the background insertion of lines 420-427. -/
theorem insertJob_size (jobs : TJobs) (buffer : String) (commands : Nat) (pid : Int) :
    (insertJob jobs buffer commands pid).size = Int.tmod (jobs.size + 1) 50 := rfl

/-- Claim C1: the spec says that when execute returns, the parent's
stdin/stdout/stderr bindings equal the snapshot taken at the start of
the call, in particular for a pipeline of length 1. The code violates
this: store (lines 248-253) contradicts its own doc comment — it never
assigns the snapshot variables, instead dup2-ing the standard streams
onto their indeterminate initial values. With those indeterminate
values all 0 (and the uninitialized pipe slot 5), executing a
single-command foreground pipeline on the table stdin=100, stdout=101,
stderr=102 leaves the parent's stdin bound to 101 — the original
STDOUT description — instead of its pre-execution binding 100. -/
theorem C1_stdin_not_restored :
    execFdsSingle 0 0 0 5 t0fd 0 = some 101 ∧ t0fd 0 = some 100 :=
  ⟨by decide, rfl⟩

/-- Claim C2, counterexample: the claim says a pipeline of N > 1
commands creates exactly N - 1 pipes, but for N = 2 the code performs
2 pipe() calls (one before the loop at line 389 and one in the single
loop iteration at lines 446-452), not 2 - 1 = 1. -/
theorem C2_counterexample : pipeCalls 2 = 2 ∧ 2 - 1 = 1 := by decide

/-- Claim C2, amended: for every pipeline of N > 1 commands
executeExternalCommands performs exactly N pipe() calls — one before
the first fork plus one per loop iteration, the final iteration's pipe
being created and closed without ever carrying data — and for a
single-command pipeline it creates no pipe at all. -/
theorem C2_amended :
    (∀ n, 2 ≤ n → pipeCalls n = n) ∧ pipeCalls 1 = 0 := by
  refine ⟨fun n hn => ?_, rfl⟩
  unfold pipeCalls
  rw [if_pos (by omega), pipeCallsLoop_eq n (by omega) n 1 (by omega)]
  omega

/-- Claim C2, witness: the amended count evaluated on a three-command
pipeline. -/
theorem C2_witness : 2 ≤ 3 ∧ pipeCalls 3 = 3 :=
  ⟨by decide, C2_amended.1 3 (by decide)⟩

/-- Claim C3: the spec says that once all of a job's processes have
exited, a later is_finished call reports the job finished. The code
violates this because its polls reap destructively: on a two-stage job
whose first pid (100) has exited while the second (101) still runs,
finished returns 0 after reaping pid 100; when pid 101 later exits and
finished is called again, the waitpid on the already-reaped pid 100
answers -1 (ECHILD), so finished returns 0 — and will forever — even
though every process of the job has exited. -/
theorem C3_job_never_reported_done :
    (finished c3job c3w0).1 = 0 ∧ (finished c3job c3w0).2.1.finished = 0 ∧
    c3w2 100 = PidState.reaped ∧ c3w2 101 = PidState.exited ∧
    (finished c3job c3w2).1 = 0 := by decide

/-- Claim C4, amended: inserting a background job when the registry
holds 49 jobs (its last free slot; capacity 50) does not fail: the job
is written into slot 49 and jobs->size = (49 + 1) % 50 wraps the size
counter to 0, making every registry entry invisible. -/
theorem C4_amended (jobs : TJobs) (buffer : String) (pids : Nat → Int)
    (h : jobs.size = 49) :
    (executeExternalCommands ⟨1, true⟩ jobs buffer pids).jobs.size = 0 ∧
    ((executeExternalCommands ⟨1, true⟩ jobs buffer pids).jobs.list 49).instruction
      = buffer := by
  constructor
  · show Int.tmod (jobs.size + 1) 50 = 0
    rw [h]
    decide
  · show ((insertJob jobs buffer 1 (pids 0)).list 49).instruction = buffer
    simp only [insertJob, h]
    rw [show Int.toNat 49 = 49 from rfl, if_pos rfl]

/-- Claim C4, counterexample: the claim says the insertion fails as a
capacity violation, no entry is made invisible, and the size counter
does not wrap. On a registry of 49 jobs the code stores the new job in
slot 49 and wraps the size counter to 0 — the insertion does not fail,
and all 50 entries become invisible. -/
theorem C4_counterexample :
    jobs49.size = 49 ∧
    (executeExternalCommands ⟨1, true⟩ jobs49 "sleep 5 &" (fun _ => 7)).jobs.size = 0 ∧
    ((executeExternalCommands ⟨1, true⟩ jobs49 "sleep 5 &"
        (fun _ => 7)).jobs.list 49).instruction = "sleep 5 &" := by decide

/-- Claim C4, witness: the amended statement applied to the concrete
49-job registry. -/
theorem C4_witness :
    jobs49.size = 49 ∧
    (executeExternalCommands ⟨1, true⟩ jobs49 "cmd &" (fun _ => 9)).jobs.size = 0 ∧
    ((executeExternalCommands ⟨1, true⟩ jobs49 "cmd &"
        (fun _ => 9)).jobs.list 49).instruction = "cmd &" :=
  ⟨rfl, C4_amended jobs49 "cmd &" (fun _ => 9) rfl⟩

/-- Claim C5: the spec says exactly the jobs found finished in the pass
are removed after the pass. The code violates this: with jobs a
(finished), b (finished), c (running), mshjobs prints the three status
lines correctly, but the delete pass applies the recorded indices 0
and 1 to the already-shifted array, so after it the registry holds
exactly one job — b, a finished one — while the running job c has been
removed. -/
theorem C5_wrong_job_removed :
    (mshjobs c5jobs c5w).2.2 =
      ["[1] Done\ta &", "[2] Done\tb &", "[3] Running\tc &"] ∧
    (mshjobs c5jobs c5w).1.size = 1 ∧
    ((mshjobs c5jobs c5w).1.list 0).instruction = "b &" := by decide

/-- Claim C6, counterexample: the claim says the announced slot equals
the job's 1-based insertion order. For the job inserted into a 49-job
registry the insertion order is 49 + 1 = 50 but the code announces
"[0] 7" — the size counter after the modulo wrap. -/
theorem C6_counterexample :
    (executeExternalCommands ⟨1, true⟩ jobs49 "x" (fun _ => 7)).out = [(0, 7)] ∧
    jobs49.size + 1 = 50 := by decide

/-- Claim C6, amended: for every background job inserted while the
registry holds at most 48 jobs, the announced slot number equals the
job's 1-based insertion order (old size + 1, announced with the last
command's pid), and removing the job at position k slides every later
in-range entry down by exactly one position. -/
theorem C6_amended (jobs : TJobs) (buffer : String) (pids : Nat → Int) (n : Nat)
    (h0 : 0 ≤ jobs.size) (h1 : jobs.size ≤ 48) (hn : 1 ≤ n)
    (k i : Nat) (hk : k ≤ i) (hi : i + 1 < jobs.size.toNat) :
    (executeExternalCommands ⟨n, true⟩ jobs buffer pids).out =
      [(jobs.size + 1, pids (n - 1))]
    ∧ (delete k jobs).list i = jobs.list (i + 1) := by
  constructor
  · by_cases hn1 : 1 < n
    · simp only [executeExternalCommands, if_true]
      rw [if_pos hn1]
      rw [execLoopGo_out_bg pids n jobs.size.toNat n 1 _ [] hn1 hn1 (by omega)]
      rw [insertJob_size, tmod50_small jobs.size h0 h1]
      simp
    · have hn2 : n = 1 := by omega
      subst hn2
      simp only [executeExternalCommands, if_true]
      rw [if_neg (by omega)]
      rw [execLoopGo_stop pids 1 true jobs.size.toNat 1 1 _ _ (by omega)]
      rw [insertJob_size, tmod50_small jobs.size h0 h1]
  · rw [show (delete k jobs).list = deleteLoop (jobs.size.toNat - k) jobs.list k from rfl,
      deleteLoop_get, if_pos (by omega)]

/-- Claim C6, witness: the amended statement on a two-command
background pipeline inserted into the three-job registry, and the
shift of position 1 after deleting position 0. -/
theorem C6_witness :
    (0 : Int) ≤ (3 : Int) ∧
    (executeExternalCommands ⟨2, true⟩ c5jobs "p | q &" (fun n => 200 + n)).out
      = [(3 + 1, 201)] ∧
    (delete 0 c5jobs).list 1 = c5jobs.list 2 :=
  ⟨by decide,
   (C6_amended c5jobs "p | q &" (fun n => 200 + n) 2 (by decide) (by decide)
      (by decide) 0 1 (by decide) (by decide)).1,
   (C6_amended c5jobs "p | q &" (fun n => 200 + n) 2 (by decide) (by decide)
      (by decide) 0 1 (by decide) (by decide)).2⟩

/-- Claim C7: the spec says a failed redirection open is reported, the
original stream stays bound, and the process continues. The code
violates the last two parts: auxiliarRedirect prints the diagnostic
naming the file but does not return, so control flows into
fileno(NULL) / dup2 / fclose(NULL) — undefined behavior that in
practice crashes the redirecting process instead of leaving it running
with its prior bindings. The model marks that path ub. -/
theorem C7_open_failure_reaches_ub :
    auxiliarRedirect (fun _ _ => none) "out.txt" "w" 1 t0fd [] =
      RedirResult.ub ["out.txt: Error."] := rfl

/-- Claim C8, counterexample: the claim says the i-th wait reaps the
i-th command's process. The foreground wait is wait(NULL), which reaps
a scheduler-chosen unreaped child: with an outstanding background
zombie 7, executing the single-command pipeline whose child has pid 9
can reap 7 on its one wait, while the spawn order is [9]. -/
theorem C8_counterexample :
    (fgRun (fun _ => 9) (fun _ => 1) 1 0 [7]).2 = [7] ∧
    spawnOrder (fun _ => 9) 0 1 = [9] := by decide

/-- Claim C8, amended: the parent performs one blocking wait(NULL) per
child in left-to-right spawn order, and each wait reaps an arbitrary
unreaped child of the shell; when the shell has no other unreaped
children, every scheduler choice makes the i-th wait reap exactly the
i-th command's process, so the reap log equals the spawn order. -/
theorem C8_amended (pids : Nat → Int) (picks : Nat → Nat) (n : Nat) :
    (fgRun pids picks n 0 []).2 = spawnOrder pids 0 n :=
  fgRun_no_other_children pids picks n 0

/-- Claim C9: for every call that enters a blocking wait — a foreground
executeExternalCommands call, or an mshfg call that passes its guards
and reaches its wait loop — the SIGINT handler in effect when the call
returns is the idle handler ctrlc, on the single exit path of each
function (lines 533 and 847), whatever handler was in effect before. -/
theorem C9_idle_handler_restored :
    (∀ (line : LineT) (jobs : TJobs) (buffer : String) (pids : Nat → Int),
        line.background = false →
        (executeExternalCommands line jobs buffer pids).handler = Handler.ctrlc)
    ∧ (∀ (arg : String) (jobs : TJobs) (w : World) (h : Handler),
        jobs.size ≠ 0 →
        ¬(atoi arg - 1 < 0 ∨ jobs.size - 1 < atoi arg - 1) →
        (finished (jobs.list (atoi arg - 1).toNat) w).1 = 0 →
        (mshfgCore arg jobs w h).2.2.1 = Handler.ctrlc) := by
  constructor
  · intro line jobs buffer pids hbg
    unfold executeExternalCommands
    rw [hbg]
    rfl
  · intro arg jobs w h hne hguard hfin
    simp only [mshfgCore]
    rw [if_neg hne, if_neg hguard, if_pos hfin]

/-- Claim C9, witness: a foreground single-command execution and an
mshfg call that reaches its blocking wait on the unfinished job in
slot 1, both returning with the idle handler installed. -/
theorem C9_witness :
    (executeExternalCommands ⟨1, false⟩ c9jobs "a" (fun _ => 100)).handler
      = Handler.ctrlc
    ∧ (mshfgCore "1" c9jobs c9w Handler.ctrlc2).2.2.1 = Handler.ctrlc :=
  ⟨C9_idle_handler_restored.1 ⟨1, false⟩ c9jobs "a" (fun _ => 100) rfl,
   C9_idle_handler_restored.2 "1" c9jobs c9w Handler.ctrlc2 (by decide) (by decide)
     (by decide)⟩

/-- Claim C10: when the registry is non-empty and the fg argument maps
to a slot at or below zero (atoi at most 0: a non-numeric string, "0",
or a negative number), mshfg prints "fg: Error. No such job" on the
error stream and returns with the registry, the process world and the
signal handler completely unchanged. -/
theorem C10_invalid_fg_slot (arg : String) (jobs : TJobs) (w : World) (h : Handler)
    (hne : jobs.size ≠ 0) (harg : atoi arg ≤ 0) :
    mshfgCore arg jobs w h = (jobs, w, h, [Out.err "fg: Error. No such job"]) := by
  simp only [mshfgCore]
  rw [if_neg hne, if_pos (Or.inl (by omega))]

/-- Claim C10, witness: mshfg applied to the non-numeric argument "abc"
on the non-empty one-job registry. -/
theorem C10_witness :
    c9jobs.size ≠ 0 ∧ atoi "abc" ≤ 0 ∧
    mshfgCore "abc" c9jobs c9w Handler.ctrlc =
      (c9jobs, c9w, Handler.ctrlc, [Out.err "fg: Error. No such job"]) :=
  ⟨by decide, by decide,
   C10_invalid_fg_slot "abc" c9jobs c9w Handler.ctrlc (by decide) (by decide)⟩
